import Mathlib

/-!
Formal model of the MediScan health pipeline: the risk prediction engine
(`prediction-engine.py`) and the emergency summarizer
(`emergency_summarizer.py`), translated as a shallow embedding into Lean,
with theorems settling the specification's claims about them.

Numeric scores are modelled over the rationals; Python's `round(x, 1)`
(round half to even) is modelled exactly by `pyRound1`.
-/

namespace MediScan

/-- Python's `str.lower()` for the ASCII strings used here. -/
def pyLower (s : String) : String := String.mk (s.data.map Char.toLower)

/-- Does `needle` occur as a contiguous sublist? -/
def listContainsSub (needle : List Char) : List Char → Bool
  | [] => needle.isEmpty
  | l@(_ :: rest) => needle.isPrefixOf l ∨ listContainsSub needle rest

/-- Python's substring test `needle in hay`. -/
def pyContains (hay needle : String) : Bool := listContainsSub needle.toList hay.toList

/-- Splitter core of `pySplitOn` (fuel-driven scan). -/
def splitSepGo (sep : List Char) : ℕ → List Char → List Char → List (List Char)
  | _, [], acc => [acc.reverse]
  | 0, l, acc => [acc.reverse ++ l]
  | fuel + 1, c :: rest, acc =>
    if sep.isPrefixOf (c :: rest) then
      acc.reverse :: splitSepGo sep fuel ((c :: rest).drop sep.length) []
    else splitSepGo sep fuel rest (c :: acc)

/-- Python's `str.split(sep)` for a non-empty literal separator. -/
def pySplitOn (s sep : String) : List String :=
  (splitSepGo sep.toList (s.length + 1) s.toList []).map String.mk

/-- Round a rational half to even, as Python's `round` does on an integer target. -/
def halfEvenRound (q : ℚ) : ℤ :=
  let f := ⌊q⌋
  let r := q - f
  if r < 1/2 then f
  else if r > 1/2 then f + 1
  else if f % 2 = 0 then f else f + 1

/-- Python's `round(x, 1)`. -/
def pyRound1 (q : ℚ) : ℚ := (halfEvenRound (10 * q) : ℚ) / 10

/-- Lexicographic comparison of character lists (Python string `<`). -/
def lexLt : List Char → List Char → Bool
  | [], [] => false
  | [], _ :: _ => true
  | _ :: _, [] => false
  | a :: as, b :: bs => if a < b then true else if b < a then false else lexLt as bs

/-- Stable insertion into a descending list: `x` is placed before the first
element that it strictly exceeds, so equal keys keep their original order
(the behaviour of Python's stable `sorted(..., reverse=True)`). -/
def insertDescBy (gtB : α → α → Bool) (x : α) : List α → List α
  | [] => [x]
  | y :: ys => if gtB x y then x :: y :: ys else y :: insertDescBy gtB x ys

/-- Python's stable `sorted(l, key=..., reverse=True)`. -/
def pySortDescBy (gtB : α → α → Bool) (l : List α) : List α :=
  l.foldl (fun acc x => insertDescBy gtB x acc) []

/-! ### Prediction engine: data model -/

/-- One record of the predictor's JSON payload: `date`, `disease` and `risk`
are all optional keys. -/
structure PRecord where
  disease : Option String
  risk : Option String
  date : Option String
deriving DecidableEq

/-- `record.get('disease', '')`. -/
def PRecord.diseaseD (r : PRecord) : String := r.disease.getD ""

/-- `record.get('risk', 'low')`. -/
def PRecord.riskD (r : PRecord) : String := r.risk.getD "low"

/-- `record.get('date', '')` (the sort key used by `analyze_risk_progression`). -/
def PRecord.dateD (r : PRecord) : String := r.date.getD ""

/-- The `patientData` object: `age` defaults to 30, `records` to `[]`. -/
structure PatientData where
  age : Option ℤ
  records : Option (List PRecord)

/-! ### Prediction engine: scoring -/

/-- `calculate_age_risk`: age-based risk factor from fixed brackets. -/
def calculate_age_risk (age : ℤ) : ℚ :=
  if age < 18 then 0.1
  else if age < 40 then 0.2
  else if age < 60 then 0.4
  else if age < 75 then 0.6
  else 0.8

/-- The keys of the `Counter` of diseases, in first-insertion order
(records whose `disease` is missing or empty are skipped). -/
def diseaseKeys (records : List PRecord) : List String :=
  records.foldl
    (fun acc r => if r.diseaseD ≠ "" ∧ r.diseaseD ∉ acc then acc ++ [r.diseaseD] else acc) []

/-- Number of records carrying the given disease label. -/
def diseaseOccurrences (records : List PRecord) (d : String) : ℕ :=
  records.countP (fun r => r.diseaseD = d)

/-- Number of records whose lowercased `risk` equals the given recognized level. -/
def riskAtLevel (records : List PRecord) (level : String) : ℕ :=
  records.countP (fun r => pyLower r.riskD = level)

/-- Does a disease label (lowercased) contain any of the indicator keywords? -/
def matchesAny (indicators : List String) (d : String) : Bool :=
  indicators.any (fun ind => pyContains (pyLower d) ind)

/-- Number of distinct disease labels containing one of the indicators
(`sum(1 for d in disease_counts if any(ind in d.lower() for ind in indicators))`). -/
def indicatorCount (indicators : List String) (records : List PRecord) : ℕ :=
  (diseaseKeys records).countP (matchesAny indicators)

def diabetes_indicators : List String := ["diabetes", "blood sugar", "glucose", "insulin"]

def hypertension_indicators : List String := ["hypertension", "blood pressure", "bp"]

def heart_indicators : List String := ["heart", "cardiac", "coronary", "chest pain"]

def kidney_indicators : List String := ["kidney", "renal", "creatinine"]

/-- `condition_risks['Type 2 Diabetes'] = min(diabetes_count * 0.3, 1.0)`. -/
def diabetesScore (records : List PRecord) : ℚ :=
  min ((indicatorCount diabetes_indicators records : ℚ) * 0.3) 1

/-- `condition_risks['Hypertension'] = min(hypertension_count * 0.3, 1.0)`. -/
def hypertensionScore (records : List PRecord) : ℚ :=
  min ((indicatorCount hypertension_indicators records : ℚ) * 0.3) 1

/-- `condition_risks['Heart Disease']`: keyword matches weighted 0.25 plus
0.1 per high/critical record, capped at 1. -/
def heartScore (records : List PRecord) : ℚ :=
  min ((indicatorCount heart_indicators records : ℚ) * 0.25 +
    ((riskAtLevel records "high" + riskAtLevel records "critical" : ℕ) : ℚ) * 0.1) 1

/-- `condition_risks['Stroke']`: composite of the already-computed
hypertension, diabetes and heart scores, capped at 1. -/
def strokeScore (records : List PRecord) : ℚ :=
  min (hypertensionScore records * 0.4 + diabetesScore records * 0.3 +
    heartScore records * 0.3) 1

/-- `condition_risks['Kidney Disease']`: kidney keyword matches weighted 0.2
plus composite of hypertension and diabetes scores, capped at 1. -/
def kidneyScore (records : List PRecord) : ℚ :=
  min ((indicatorCount kidney_indicators records : ℚ) * 0.2 +
    hypertensionScore records * 0.3 + diabetesScore records * 0.3) 1

/-- `analyze_medical_history`: the dict of per-condition history scores in
insertion order; empty records give the empty dict. -/
def analyze_medical_history (records : List PRecord) : List (String × ℚ) :=
  if records = [] then []
  else
    [("Type 2 Diabetes", diabetesScore records),
     ("Hypertension", hypertensionScore records),
     ("Heart Disease", heartScore records),
     ("Stroke", strokeScore records),
     ("Kidney Disease", kidneyScore records)]

/-- Look a condition up in the history-score dict (`dict.get(name, none)`). -/
def lookupScore (scores : List (String × ℚ)) (name : String) : Option ℚ :=
  (scores.find? (fun p => p.1 = name)).map (fun p => p.2)

/-- `risk_order.get(risk, 1)`: ordinal encoding of a risk label. -/
def riskOrdinal (s : String) : ℕ :=
  if s = "low" then 1
  else if s = "medium" then 2
  else if s = "high" then 3
  else if s = "critical" then 4
  else 1

/-- Records sorted by their raw `date` string, most recent first, stable. -/
def sortRecordsByDateDesc (records : List PRecord) : List PRecord :=
  pySortDescBy (fun r₁ r₂ => lexLt r₂.dateD.toList r₁.dateD.toList) records

/-- `analyze_risk_progression`: slope of risk ordinals between the three most
recent of the ten most recent records and the rest, normalized by 4 and
clamped to [0, 1]. -/
def analyze_risk_progression (records : List PRecord) : ℚ :=
  if records.length < 2 then 0
  else
    let sortedRecords := sortRecordsByDateDesc records
    let risk_values : List ℕ :=
      (sortedRecords.take 10).map (fun r => riskOrdinal (pyLower r.riskD))
    if risk_values.length < 2 then 0
    else
      let recent_avg : ℚ :=
        ((risk_values.take 3).sum : ℚ) / ((min 3 (risk_values.take 3).length : ℕ) : ℚ)
      let older_avg : ℚ :=
        ((risk_values.drop 3).sum : ℚ) / ((max 1 (risk_values.drop 3).length : ℕ) : ℚ)
      let progression := (recent_avg - older_avg) / 4
      max 0 (min progression 1)

/-- `identify_recurring_patterns`: disease labels appearing more than once,
with their counts, in first-insertion order. -/
def identify_recurring_patterns (records : List PRecord) : List (String × ℕ) :=
  ((diseaseKeys records).filter (fun d => 1 < diseaseOccurrences records d)).map
    (fun d => (d, diseaseOccurrences records d))

def metabolic_conditions : List String :=
  ["diabetes", "obesity", "metabolic syndrome", "cholesterol"]

def cardiovascular_conditions : List String :=
  ["hypertension", "heart disease", "coronary", "cardiac"]

def respiratory_conditions : List String :=
  ["asthma", "copd", "bronchitis", "pneumonia"]

/-- The per-record list of lowercased disease labels (duplicates kept,
records without a disease label dropped). -/
def lowerDiseases (records : List PRecord) : List String :=
  (records.filter (fun r => r.diseaseD ≠ "")).map (fun r => pyLower r.diseaseD)

/-- How many entries of the per-record disease list fall in a keyword group. -/
def groupOccurrences (group : List String) (records : List PRecord) : ℕ :=
  (lowerDiseases records).countP (fun d => group.any (fun cond => pyContains d cond))

/-- `check_related_conditions`: comorbidity bonus from co-occurring keyword
groups over the per-record disease list, capped at 1. -/
def check_related_conditions (records : List PRecord) : ℚ :=
  let metabolic_count := groupOccurrences metabolic_conditions records
  let cardiovascular_count := groupOccurrences cardiovascular_conditions records
  let respiratory_count := groupOccurrences respiratory_conditions records
  let comorbidity_score : ℚ :=
    (if 2 ≤ metabolic_count then 0.3 else 0) +
    (if 2 ≤ cardiovascular_count then 0.3 else 0) +
    (if 2 ≤ respiratory_count then 0.2 else 0) +
    (if 1 ≤ metabolic_count ∧ 1 ≤ cardiovascular_count then 0.2 else 0)
  min comorbidity_score 1

/-- `generate_recommendations`: fixed per-condition advice plus risk-gated
extras, truncated to five entries. -/
def generate_recommendations (condition : String) (risk_level : String) : List String :=
  let base : List String :=
    if condition = "Type 2 Diabetes" then
      ["Regular blood sugar monitoring",
       "Maintain healthy diet with controlled carbohydrate intake"] ++
      (if risk_level = "high" ∨ risk_level = "critical" then
        ["Consult endocrinologist for medication review",
         "Consider continuous glucose monitoring"] else [])
    else if condition = "Hypertension" then
      ["Monitor blood pressure regularly",
       "Reduce sodium intake",
       "Regular cardiovascular exercise"] ++
      (if risk_level = "high" ∨ risk_level = "critical" then
        ["Immediate consultation with cardiologist recommended"] else [])
    else if condition = "Heart Disease" then
      ["Regular cardiac checkups",
       "Stress management and adequate rest",
       "Heart-healthy diet (low saturated fat)"] ++
      (if risk_level = "critical" then
        ["Emergency cardiac evaluation recommended"] else [])
    else if condition = "Stroke" then
      ["Control blood pressure and blood sugar",
       "Regular neurological assessments",
       "Antiplatelet therapy as prescribed"] ++
      (if risk_level = "high" ∨ risk_level = "critical" then
        ["Immediate stroke risk assessment needed"] else [])
    else if condition = "Kidney Disease" then
      ["Regular kidney function tests",
       "Stay well hydrated",
       "Limit protein and sodium intake"] ++
      (if risk_level = "high" ∨ risk_level = "critical" then
        ["Nephrology consultation recommended"] else [])
    else []
  let withFollowUp := base ++
    (if risk_level = "high" ∨ risk_level = "critical" then
      ["Schedule follow-up appointment within 2 weeks"] else [])
  withFollowUp.take 5

/-- One entry of the `predictions` list. -/
structure Prediction where
  condition : String
  riskScore : ℚ
  riskLevel : String
  confidence : ℚ
  factors : List String
  recommendations : List String
deriving DecidableEq

/-- The `prediction` object of the engine's response. -/
structure PredictionResult where
  predictions : List Prediction
  overallHealthScore : ℚ
  trendDirection : String
deriving DecidableEq

/-- Threshold a raw 0-100 risk score into a level. -/
def riskLevelOf (risk_score : ℚ) : String :=
  if 75 ≤ risk_score then "critical"
  else if 50 ≤ risk_score then "high"
  else if 25 ≤ risk_score then "medium"
  else "low"

/-- The prediction entry built for one condition inside
`calculate_disease_risk`'s loop. -/
def predictionFor (age : ℤ) (age_risk progression_risk comorbidity_risk : ℚ)
    (recurring : List (String × ℕ)) (recordCount : ℕ) (ch : String × ℚ) : Prediction :=
  let condition := ch.1
  let history_score := ch.2
  let isRecurring := recurring.any (fun p => p.1 = condition)
  let risk_score : ℚ :=
    (age_risk * 0.15 + history_score * 0.35 + progression_risk * 0.25 +
      (if isRecurring then 0.15 else 0) + comorbidity_risk * 0.10) * 100
  let risk_level := riskLevelOf risk_score
  let factors : List String :=
    (if 60 ≤ age then [s!"Age factor: {age} years"] else []) ++
    (if 0.3 < history_score then ["Existing medical history"] else []) ++
    (if 0.3 < progression_risk then ["Increasing risk trend"] else []) ++
    (if isRecurring then ["Recurring condition"] else []) ++
    (if 0.2 < comorbidity_risk then ["Related health conditions present"] else [])
  { condition := condition,
    riskScore := pyRound1 risk_score,
    riskLevel := risk_level,
    confidence := min (0.7 + (recordCount : ℚ) * 0.03) 0.95,
    factors := factors,
    recommendations := generate_recommendations condition risk_level }

/-- `overall_health_score` before the final rounding: inverse of the average
of the (stored, already rounded) risk scores, floored at 0; 85 when no
condition was flagged. -/
def overallFromPreds (preds : List Prediction) : ℚ :=
  if preds = [] then 85
  else max 0 (100 - (preds.map (fun p => p.riskScore)).sum / (preds.length : ℚ))

/-- `calculate_disease_risk`: the engine's whole per-payload computation. -/
def calculate_disease_risk (patient_data : PatientData) : PredictionResult :=
  let age := patient_data.age.getD 30
  let records := patient_data.records.getD []
  let age_risk := calculate_age_risk age
  let history_risks := analyze_medical_history records
  let progression_risk := analyze_risk_progression records
  let recurring := identify_recurring_patterns records
  let comorbidity_risk := check_related_conditions records
  let predictions := history_risks.map
    (predictionFor age age_risk progression_risk comorbidity_risk recurring records.length)
  let overall_health_score := overallFromPreds predictions
  let trend :=
    if 0.3 < progression_risk then "declining"
    else if progression_risk < -0.1 then "improving"
    else "stable"
  { predictions :=
      pySortDescBy (fun p q => decide (q.riskScore < p.riskScore)) predictions,
    overallHealthScore := pyRound1 overall_health_score,
    trendDirection := trend }

/-! ### Prediction engine: process framing (`main`) -/

/-- The possible outputs a `main` writes as JSON. -/
inductive OutPayload where
  | errorOut : String → OutPayload
  | successPred : PredictionResult → OutPayload
  | successSumm : String → OutPayload
deriving DecidableEq

/-- What a process invocation produces: the payload, the exit status, and
whether the payload went to stderr. -/
structure ProcResult where
  out : OutPayload
  exitCode : ℕ
  toStderr : Bool
deriving DecidableEq

/-- Input situations for the predictor's `main`: an unreadable payload
(raising inside the `try`), or a payload whose `patientData` is either
missing/empty (`none`) or present. -/
inductive PredInput where
  | malformed : String → PredInput
  | payload : Option PatientData → PredInput

/-- The predictor's `main`. -/
def mainP : PredInput → ProcResult
  | .malformed msg =>
      ⟨.errorOut ("Prediction failed: " ++ msg), 1, true⟩
  | .payload none =>
      ⟨.errorOut "No patient data provided", 0, false⟩
  | .payload (some pd) =>
      ⟨.successPred (calculate_disease_risk pd), 0, false⟩

/-! ### Summarizer: character and string helpers -/

/-- Python `\s` whitespace characters. -/
def isPyWs (c : Char) : Bool :=
  c = ' ' ∨ c = '\t' ∨ c = '\n' ∨ c = '\r' ∨ c = '\x0b' ∨ c = '\x0c'

/-- Python regex `\w` characters (ASCII). -/
def isWordChar (c : Char) : Bool := c.isAlphanum ∨ c = '_'

/-- Python's `str.strip()`. -/
def pyStrip (s : String) : String :=
  String.mk (((s.toList.dropWhile isPyWs).reverse.dropWhile isPyWs).reverse)

/-- Python's `str.title()`: capitalize the first letter of each letter run. -/
def pyTitleGo : Bool → List Char → List Char
  | _, [] => []
  | prevAlpha, c :: rest =>
    if c.isAlpha then (if prevAlpha then c.toLower else c.toUpper) :: pyTitleGo true rest
    else c :: pyTitleGo false rest

/-- Python's `str.title()`. -/
def pyTitle (s : String) : String := String.mk (pyTitleGo false s.toList)

/-! ### Summarizer: labeled-field extraction

Each field is pulled with `re.search(r'Label:\s*(.+?)(?:\n|$)', text)`:
find the first occurrence of the label, skip any whitespace after it, and
capture the remainder of that line (stripped); if only whitespace follows
the label, there is no match and the field stays unset. -/

/-- Drop everything up to and including the first occurrence of `needle`. -/
def dropUntilAfter (needle : List Char) : List Char → Option (List Char)
  | [] => none
  | c :: rest =>
    if needle.isPrefixOf (c :: rest) then some ((c :: rest).drop needle.length)
    else dropUntilAfter needle rest

/-- Capture the rest of the line after a matched label, per the field regex. -/
def captureLineAfter (rest : List Char) : Option String :=
  let afterWs := rest.dropWhile isPyWs
  if afterWs.isEmpty then none
  else some (pyStrip (String.mk (afterWs.takeWhile (fun c => c ≠ '\n'))))

/-- Extract a single-line labeled field. -/
def extractField (label : String) (text : String) : Option String :=
  (dropUntilAfter label.toList text.toList).bind captureLineAfter

/-- Capture characters until a newline or a literal `Treatment:` stopper
(the lazy DOTALL capture of the description regex, which must consume at
least one character). -/
def takeUntilStopD : List Char → List Char
  | [] => []
  | c :: rest =>
    if c = '\n' then []
    else if ("Treatment:".toList).isPrefixOf (c :: rest) then []
    else c :: takeUntilStopD rest

/-- Extract the `Description:` field
(`re.search(r'Description:\s*(.+?)(?:\n|Treatment:|$)', text, re.DOTALL)`). -/
def extractDescription (text : String) : Option String :=
  (dropUntilAfter "Description:".toList text.toList).bind (fun rest =>
    match rest.dropWhile isPyWs with
    | [] => none
    | c :: cs => some (pyStrip (String.mk (c :: takeUntilStopD cs))))

/-- Find the first occurrence of `Warnings:` or `Warning:`
(the regex `Warnings?:`) and drop through it. -/
def dropAfterWarnLabel : List Char → Option (List Char)
  | [] => none
  | c :: rest =>
    if ("Warnings:".toList).isPrefixOf (c :: rest) then some ((c :: rest).drop 9)
    else if ("Warning:".toList).isPrefixOf (c :: rest) then some ((c :: rest).drop 8)
    else dropAfterWarnLabel rest

/-- Extract the warnings field (`re.search(r'Warnings?:\s*(.+?)(?:\n|$)', text)`). -/
def extractWarnField (text : String) : Option String :=
  (dropAfterWarnLabel text.toList).bind captureLineAfter

/-! ### Summarizer: dates -/

/-- A calendar date (Python `datetime` at midnight). -/
structure SDate where
  year : ℤ
  month : ℤ
  day : ℤ
deriving DecidableEq

/-- `datetime(1900, 1, 1)`, the sentinel for unparsable dates. -/
def sentinelDate : SDate := ⟨1900, 1, 1⟩

def isLeapYear (y : ℤ) : Bool := (y % 4 = 0 ∧ y % 100 ≠ 0) ∨ y % 400 = 0

def daysInMonth (y m : ℤ) : ℤ :=
  if m = 2 then (if isLeapYear y then 29 else 28)
  else if m = 4 ∨ m = 6 ∨ m = 9 ∨ m = 11 then 30
  else 31

def allDigits (l : List Char) : Bool := ¬l.isEmpty ∧ l.all (fun c => c.isDigit)

def digitsToNat (l : List Char) : ℕ := l.foldl (fun acc c => 10 * acc + (c.toNat - 48)) 0

/-- `strptime` `%m`: one or two digits, 1-12. -/
def parseMonthField (s : String) : Option ℤ :=
  let l := s.toList
  if allDigits l ∧ (l.length = 1 ∨ l.length = 2) then
    let v := digitsToNat l
    if 1 ≤ v ∧ v ≤ 12 then some (v : ℤ) else none
  else none

/-- `strptime` `%d`: one or two digits, 1-31. -/
def parseDayField (s : String) : Option ℤ :=
  let l := s.toList
  if allDigits l ∧ (l.length = 1 ∨ l.length = 2) then
    let v := digitsToNat l
    if 1 ≤ v ∧ v ≤ 31 then some (v : ℤ) else none
  else none

/-- `strptime` `%Y`: exactly four digits, year at least 1. -/
def parseYearField (s : String) : Option ℤ :=
  let l := s.toList
  if allDigits l ∧ l.length = 4 then
    let v := digitsToNat l
    if 1 ≤ v then some (v : ℤ) else none
  else none

/-- Calendar validity of the day within the month (`datetime` raises
otherwise, so the format attempt fails). -/
def mkValidDate (y m d : ℤ) : Option SDate :=
  if 1 ≤ d ∧ d ≤ daysInMonth y m then some ⟨y, m, d⟩ else none

/-- Format `%m/%d/%Y`. -/
def tryFormatMDY (s : String) : Option SDate :=
  match pySplitOn s "/" with
  | [ms, ds, ys] => do
    let m ← parseMonthField ms
    let d ← parseDayField ds
    let y ← parseYearField ys
    mkValidDate y m d
  | _ => none

/-- Format `%Y-%m-%d`. -/
def tryFormatISO (s : String) : Option SDate :=
  match pySplitOn s "-" with
  | [ys, ms, ds] => do
    let y ← parseYearField ys
    let m ← parseMonthField ms
    let d ← parseDayField ds
    mkValidDate y m d
  | _ => none

/-- Format `%d/%m/%Y`. -/
def tryFormatDMY (s : String) : Option SDate :=
  match pySplitOn s "/" with
  | [ds, ms, ys] => do
    let d ← parseDayField ds
    let m ← parseMonthField ms
    let y ← parseYearField ys
    mkValidDate y m d
  | _ => none

def monthNames : List String :=
  ["january", "february", "march", "april", "may", "june",
   "july", "august", "september", "october", "november", "december"]

/-- `%B`: a full month name, case-insensitive; returns the month number and
the remaining characters. -/
def matchMonthName (l : List Char) : Option (ℤ × List Char) :=
  ((List.range 12).findSome? (fun i =>
    let name := ((monthNames.get? i).getD "").toList
    if name.isPrefixOf (l.map Char.toLower) then some ((i : ℤ) + 1, l.drop name.length)
    else none))

/-- Format `%B %d, %Y` (month name, whitespace, day, comma, whitespace, year). -/
def tryFormatBdY (s : String) : Option SDate := do
  let (m, rest1) ← matchMonthName s.toList
  let ws1 := rest1.takeWhile isPyWs
  if ws1.isEmpty then none
  else
    let rest2 := rest1.dropWhile isPyWs
    let dayChars := rest2.takeWhile (fun c => c.isDigit)
    let d ← parseDayField (String.mk dayChars)
    match rest2.drop dayChars.length with
    | ',' :: rest3 =>
      if (rest3.takeWhile isPyWs).isEmpty then none
      else
        let y ← parseYearField (String.mk (rest3.dropWhile isPyWs))
        mkValidDate y m d
    | _ => none

/-- `parse_date`: try the four formats in order, fall back to the sentinel. -/
def parse_date (date_str : String) : SDate :=
  (tryFormatMDY date_str <|> tryFormatISO date_str <|>
   tryFormatDMY date_str <|> tryFormatBdY date_str).getD sentinelDate

/-- Days since the civil epoch 1970-01-01 (valid for years ≥ 1). -/
def toDays (dt : SDate) : ℤ :=
  let y := if dt.month ≤ 2 then dt.year - 1 else dt.year
  let era := y / 400
  let yoe := y - era * 400
  let mp := (dt.month + 9) % 12
  let doy := (153 * mp + 2) / 5 + dt.day - 1
  let doe := yoe * 365 + yoe / 4 - yoe / 100 + doy
  era * 146097 + doe - 719468

/-- Chronological comparison of dates. -/
def dateLtB (a b : SDate) : Bool :=
  if a.year ≠ b.year then decide (a.year < b.year)
  else if a.month ≠ b.month then decide (a.month < b.month)
  else decide (a.day < b.day)

/-! ### Summarizer: records -/

/-- One parsed encounter record of the summarizer. -/
structure SRecord where
  text : String
  date : Option SDate
  disease : Option String
  description : Option String
  treatment : Option String
  risk : Option String
  warnings : Option String
deriving DecidableEq

/-- Parse one `---`-separated block into a record. -/
def parseRecord (block : String) : SRecord :=
  { text := block,
    date := (extractField "Date:" block).map parse_date,
    disease := extractField "Disease:" block,
    description := extractDescription block,
    treatment := extractField "Treatment:" block,
    risk := extractField "Risk Level:" block,
    warnings := extractWarnField block }

/-- `records.sort(key=lambda x: x.get('date', datetime(1900,1,1)), reverse=True)`. -/
def sortSRecordsByDateDesc (records : List SRecord) : List SRecord :=
  pySortDescBy
    (fun r₁ r₂ => dateLtB (r₂.date.getD sentinelDate) (r₁.date.getD sentinelDate)) records

/-- The four timeline buckets. -/
structure Timeline where
  last_7_days : List SRecord
  last_30_days : List SRecord
  last_90_days : List SRecord
  older : List SRecord
deriving DecidableEq

/-- `categorize_by_timeline` relative to the injected current day `now`. -/
def categorize_by_timeline (now : ℤ) (records : List SRecord) : Timeline :=
  records.foldl (fun cats r =>
    match r.date with
    | none => { cats with older := cats.older ++ [r] }
    | some d =>
      let days_ago := now - toDays d
      if days_ago ≤ 7 then { cats with last_7_days := cats.last_7_days ++ [r] }
      else if days_ago ≤ 30 then { cats with last_30_days := cats.last_30_days ++ [r] }
      else if days_ago ≤ 90 then { cats with last_90_days := cats.last_90_days ++ [r] }
      else { cats with older := cats.older ++ [r] })
    ⟨[], [], [], []⟩

/-- The four risk buckets. -/
structure RiskCats where
  critical : List SRecord
  high : List SRecord
  medium : List SRecord
  low : List SRecord
deriving DecidableEq

/-- `categorize_by_risk_level`: unrecognized levels route to `low`. -/
def categorize_by_risk_level (records : List SRecord) : RiskCats :=
  records.foldl (fun cats r =>
    let risk := pyLower (r.risk.getD "low")
    if risk = "critical" then { cats with critical := cats.critical ++ [r] }
    else if risk = "high" then { cats with high := cats.high ++ [r] }
    else if risk = "medium" then { cats with medium := cats.medium ++ [r] }
    else { cats with low := cats.low ++ [r] })
    ⟨[], [], [], []⟩

/-! ### Summarizer: pattern analysis -/

/-- `[r.get('disease', '') for r in records if r.get('disease')]`. -/
def sDiseases (records : List SRecord) : List String :=
  (records.filter (fun r => r.disease.getD "" ≠ "")).map (fun r => r.disease.getD "")

/-- `[r.get('risk', 'low') for r in records if r.get('risk')]`. -/
def sRisks (records : List SRecord) : List String :=
  (records.filter (fun r => r.risk.getD "" ≠ "")).map (fun r => r.risk.getD "low")

/-- Keys of a `Counter` built from a string list, in first-insertion order. -/
def firstOccurrences (l : List String) : List String :=
  l.foldl (fun acc d => if d ∈ acc then acc else acc ++ [d]) []

/-- The output of `analyze_patterns`. -/
structure Patterns where
  recurring_conditions : List String
  risk_trend : String
  total_visits : ℕ
  unique_conditions : ℕ
deriving DecidableEq

/-- `analyze_patterns`: recurring labels and the risk-trend classification. -/
def analyze_patterns (records : List SRecord) : Patterns :=
  let diseases := sDiseases records
  let risks := sRisks records
  let diseaseLabels := firstOccurrences diseases
  let recurring := diseaseLabels.filter (fun d => 1 < diseases.count d)
  let risk_values : List ℕ := risks.map (fun r => riskOrdinal (pyLower r))
  let risk_trend :=
    if 2 ≤ risk_values.length then
      let lastThree := risk_values.drop (risk_values.length - 3)
      let recent_avg : ℚ := (lastThree.sum : ℚ) / ((min 3 lastThree.length : ℕ) : ℚ)
      let older_avg : ℚ :=
        if 3 < risk_values.length then
          ((risk_values.take (risk_values.length - 3)).sum : ℚ) /
            ((max 1 (risk_values.take (risk_values.length - 3)).length : ℕ) : ℚ)
        else recent_avg
      if older_avg + 0.5 < recent_avg then "escalating"
      else if recent_avg < older_avg - 0.5 then "improving"
      else "stable"
    else "stable"
  { recurring_conditions := recurring,
    risk_trend := risk_trend,
    total_visits := records.length,
    unique_conditions := diseaseLabels.length }

/-! ### Summarizer: term extraction

The fixed regex tables of `extract_medical_terms` fall into two shapes:
an alternation of literal word/phrase vocabulary between `\b` boundaries,
and an alternation of lead words followed by `\s+\w+` (with an optional
further `\s+\w+` for the disease patterns). `re.findall` scans left to
right, taking at each position the first alternative that matches and
continuing after the consumed span. -/

inductive PatKind where
  | phrases : List String → PatKind
  | leadPlus : List String → Bool → PatKind

/-- Case-insensitive literal prefix test. -/
def ciPrefix (pat : List Char) (l : List Char) : Bool :=
  decide ((l.take pat.length).map Char.toLower = pat)

/-- No word character directly after the first `n` characters (`\b`). -/
def boundaryAfter (l : List Char) (n : ℕ) : Bool :=
  match l.drop n with
  | [] => true
  | c :: _ => ¬isWordChar c

/-- Match an alternation of literal vocabulary items at this position. -/
def matchPhraseAt (alts : List String) (prevWord : Bool) (l : List Char) : Option ℕ :=
  if prevWord then none
  else alts.findSome? (fun alt =>
    let pl := (pyLower alt).toList
    if ciPrefix pl l ∧ boundaryAfter l pl.length then some pl.length else none)

/-- Match a lead word followed by `\s+\w+` (optionally a second `\s+\w+`). -/
def matchLeadAt (alts : List String) (optSecond : Bool) (prevWord : Bool)
    (l : List Char) : Option ℕ :=
  if prevWord then none
  else alts.findSome? (fun alt =>
    let pl := (pyLower alt).toList
    if ciPrefix pl l then
      let rest1 := l.drop pl.length
      let ws1 := (rest1.takeWhile isPyWs).length
      let rest2 := rest1.drop ws1
      let w1 := (rest2.takeWhile isWordChar).length
      if ws1 = 0 ∨ w1 = 0 then none
      else
        let len1 := pl.length + ws1 + w1
        if optSecond then
          let rest3 := rest2.drop w1
          let ws2 := (rest3.takeWhile isPyWs).length
          let rest4 := rest3.drop ws2
          let w2 := (rest4.takeWhile isWordChar).length
          if ws2 = 0 ∨ w2 = 0 then some len1 else some (len1 + ws2 + w2)
        else some len1
    else none)

def matcherOf : PatKind → Bool → List Char → Option ℕ
  | .phrases alts => matchPhraseAt alts
  | .leadPlus alts opt => matchLeadAt alts opt

/-- `re.findall` driver: scan with word-boundary state, consume matches. -/
def findallGo (m : Bool → List Char → Option ℕ) : ℕ → Bool → List Char → List String
  | 0, _, _ => []
  | _ + 1, _, [] => []
  | fuel + 1, prevWord, c :: rest =>
    match m prevWord (c :: rest) with
    | some n =>
      if n = 0 then findallGo m fuel (isWordChar c) rest
      else
        String.mk ((c :: rest).take n) ::
          findallGo m fuel (isWordChar (((c :: rest).take n).getLastD c)) ((c :: rest).drop n)
    | none => findallGo m fuel (isWordChar c) rest

/-- All non-overlapping matches of one pattern in the text. -/
def runFindall (pat : PatKind) (text : String) : List String :=
  findallGo (matcherOf pat) (text.length + 1) false text.toList

def disease_patterns : List PatKind :=
  [.leadPlus ["acute", "chronic", "severe", "mild", "primary", "secondary"] true,
   .phrases ["hypertension", "diabetes", "asthma", "pneumonia", "bronchitis", "gastritis",
             "dengue", "arthritis", "anemia", "appendicitis", "migraine", "thyroid",
             "fracture"],
   .phrases ["infection", "inflammation", "disorder", "syndrome", "disease", "condition",
             "fever"]]

def treatment_patterns : List PatKind :=
  [.leadPlus ["prescribed", "administered", "given", "recommended"] false,
   .phrases ["antibiotics", "medication", "therapy", "surgery", "procedure", "treatment"],
   .phrases ["insulin", "aspirin", "ibuprofen", "acetaminophen", "steroids", "inhalers"]]

def symptom_patterns : List PatKind :=
  [.phrases ["cough", "fever", "pain", "nausea", "headache", "dizziness", "fatigue",
             "weakness"],
   .phrases ["shortness of breath", "chest pain", "abdominal pain"],
   .phrases ["vomiting", "diarrhea", "bleeding", "swelling", "rash"]]

def warning_patterns : List PatKind :=
  [.phrases ["warning", "caution", "contraindication", "avoid", "do not", "allergic"],
   .phrases ["emergency", "urgent", "immediate", "critical", "life-threatening"],
   .phrases ["monitor", "watch for", "check", "observe"]]

/-- `find_matches`: collect all patterns' matches, then deduplicate through
the set-enumeration function `enum` (`list(set(matches))`). -/
def find_matches (patterns : List PatKind) (enum : List String → List String)
    (text : String) : List String :=
  enum ((patterns.map (fun p => runFindall p text)).flatten)

/-- The four term categories of `extract_medical_terms`. -/
structure Terms where
  diseases : List String
  treatments : List String
  symptoms : List String
  warnings : List String

/-- `extract_medical_terms`. -/
def extract_medical_terms (enum : List String → List String) (text : String) : Terms :=
  { diseases := find_matches disease_patterns enum text,
    treatments := find_matches treatment_patterns enum text,
    symptoms := find_matches symptom_patterns enum text,
    warnings := find_matches warning_patterns enum text }

def warning_keywords : List String :=
  ["warning", "caution", "avoid", "do not", "contraindication", "emergency", "monitor",
   "immediate"]

/-- `extract_warnings_from_description`: sentences (split on `.`) containing a
warning-indicator keyword, stripped, in order, without deduplication. -/
def extract_warnings_from_description (description : String) : List String :=
  ((pySplitOn description ".").filter
    (fun sentence => warning_keywords.any (fun k => pyContains (pyLower sentence) k))).map
    pyStrip

/-! ### Summarizer: summary generation -/

/-- `generate_emergency_summary`. `now` is the injected current day and
`enum` models the interpreter's set-enumeration order (`list(set(...))`). -/
def generate_emergency_summary (now : ℤ) (enum : List String → List String)
    (patient_history : String) (emergency_mode : Bool) : String :=
  let record_texts := ((pySplitOn patient_history "---").map pyStrip).filter (fun r => r ≠ "")
  if record_texts = [] then "No medical records found to summarize."
  else
    let records := sortSRecordsByDateDesc (record_texts.map parseRecord)
    let timeline_categories := categorize_by_timeline now records
    let risk_categories := categorize_by_risk_level records
    let patterns := analyze_patterns records
    let termsPerRecord := records.map (fun r => extract_medical_terms enum r.text)
    let _allDiseaseTerms := enum ((termsPerRecord.map (fun t => t.diseases)).flatten)
    let allTreatmentTerms := enum ((termsPerRecord.map (fun t => t.treatments)).flatten)
    let allSymptomTerms := enum ((termsPerRecord.map (fun t => t.symptoms)).flatten)
    let allWarningTerms := enum ((termsPerRecord.map (fun t => t.warnings)).flatten)
    let all_warnings := enum ((records.map (fun r =>
      (match r.description with
       | some desc => extract_warnings_from_description desc
       | none => []) ++
      (match r.warnings with
       | some w => [w]
       | none => []))).flatten)
    let summary_parts₁ : List String :=
      if emergency_mode then
        let critical_conditions :=
          ((risk_categories.critical ++ risk_categories.high).filter
            (fun r => r.disease.getD "" ≠ "")).map (fun r => r.disease.getD "")
        let critical_section :=
          (if risk_categories.critical ≠ [] ∨ risk_categories.high ≠ [] then
            (if critical_conditions ≠ [] then
              ["High-Risk Conditions: " ++
                String.intercalate ", " ((enum critical_conditions).take 5)]
             else [])
           else []) ++
          (if all_warnings ≠ [] then
            ["Clinical Warnings: " ++ String.intercalate "; " (all_warnings.take 3)]
           else [])
        let parts₁ :=
          if critical_section ≠ [] then
            ["=== CRITICAL ALERTS ===\n" ++ String.intercalate "\n" critical_section]
          else []
        let recent_section :=
          (if timeline_categories.last_7_days ≠ [] then
            ["Last 7 Days: " ++
              String.intercalate ", "
                (timeline_categories.last_7_days.map (fun r => r.disease.getD "Unknown")) ++
              " (" ++ toString timeline_categories.last_7_days.length ++ " visit(s))"]
           else []) ++
          (if timeline_categories.last_30_days ≠ [] then
            ["Last 30 Days: " ++
              String.intercalate ", "
                ((timeline_categories.last_30_days.take 3).map
                  (fun r => r.disease.getD "Unknown"))]
           else [])
        parts₁ ++
          (if recent_section ≠ [] then
            ["=== RECENT HISTORY ===\n" ++ String.intercalate "\n" recent_section]
           else [])
      else []
    let unique_diseases := enum (sDiseases records)
    let unique_treatments := enum allTreatmentTerms
    let profile_section :=
      (if unique_diseases ≠ [] then
        ["Diagnosed Conditions: " ++ String.intercalate ", " (unique_diseases.take 5)]
       else []) ++
      (if patterns.recurring_conditions ≠ [] then
        ["Recurring Conditions: " ++
          String.intercalate ", " (patterns.recurring_conditions.take 3)]
       else []) ++
      (if unique_treatments ≠ [] then
        ["Treatment History: " ++ String.intercalate ", " (unique_treatments.take 5)]
       else [])
    let summary_parts₂ := summary_parts₁ ++
      (if profile_section ≠ [] then
        ["=== MEDICAL PROFILE ===\n" ++ String.intercalate "\n" profile_section]
       else [])
    let summary_parts₃ :=
      if emergency_mode then
        let warningKeywordTerms := enum allWarningTerms
        let symptoms := enum allSymptomTerms
        let clinical_section :=
          (if warningKeywordTerms ≠ [] then
            ["Attention Required: " ++ String.intercalate ", " (warningKeywordTerms.take 5)]
           else []) ++
          (if symptoms ≠ [] then
            ["Reported Symptoms: " ++ String.intercalate ", " (symptoms.take 5)]
           else [])
        summary_parts₂ ++
          (if clinical_section ≠ [] then
            ["=== CLINICAL CONSIDERATIONS ===\n" ++ String.intercalate "\n" clinical_section]
           else [])
      else summary_parts₂
    let risk_summary :=
      (if risk_categories.critical.length ≠ 0 then
        [pyTitle "critical" ++ ": " ++ toString risk_categories.critical.length] else []) ++
      (if risk_categories.high.length ≠ 0 then
        [pyTitle "high" ++ ": " ++ toString risk_categories.high.length] else []) ++
      (if risk_categories.medium.length ≠ 0 then
        [pyTitle "medium" ++ ": " ++ toString risk_categories.medium.length] else []) ++
      (if risk_categories.low.length ≠ 0 then
        [pyTitle "low" ++ ": " ++ toString risk_categories.low.length] else [])
    let insights_section :=
      (if risk_summary ≠ [] then
        ["Risk Distribution: " ++ String.intercalate ", " risk_summary] else []) ++
      ["Risk Trend: " ++ pyTitle patterns.risk_trend] ++
      ["Total Records: " ++ toString patterns.total_visits ++ " visits, " ++
        toString patterns.unique_conditions ++ " unique conditions"]
    let summary_parts₄ := summary_parts₃ ++
      (if insights_section ≠ [] then
        ["=== QUICK INSIGHTS ===\n" ++ String.intercalate "\n" insights_section]
       else [])
    String.intercalate "\n\n" summary_parts₄

/-! ### Summarizer: process framing (`main`) -/

/-- Input situations for the summarizer's `main`: an unreadable payload, or a
payload with its `history` string (missing defaults to `""`) and
`emergencyMode` flag (missing defaults to `true`). -/
inductive SummInput where
  | malformed : String → SummInput
  | payload : String → Bool → SummInput

/-- The summarizer's `main`. -/
def mainS (now : ℤ) (enum : List String → List String) : SummInput → ProcResult
  | .malformed msg => ⟨.errorOut ("Processing failed: " ++ msg), 1, true⟩
  | .payload history em =>
    if history = "" then ⟨.errorOut "No patient history provided", 0, false⟩
    else ⟨.successSumm (generate_emergency_summary now enum history em), 0, false⟩

/-! ### Set-enumeration orders

`list(set(...))` returns the distinct elements in an order chosen by the
interpreter (string hashing is salted per process). A valid enumeration
returns every distinct element exactly once. -/

/-- A function validly models `list(set(...))`: its output holds each input
element exactly once. -/
def IsSetEnum (enum : List String → List String) : Prop :=
  ∀ l, (enum l).Nodup ∧ ∀ x, x ∈ enum l ↔ x ∈ l

/-- One valid set-enumeration order (keep the last occurrence of each value). -/
def dedupLast : List String → List String := fun l => l.dedup

/-- Another valid set-enumeration order: the reverse of `dedupLast`. -/
def dedupLastRev : List String → List String := fun l => l.dedup.reverse

/-! ### Specification-side formulations used by the claims -/

/-- The trend computation as claim C3 states it: the ten most recent
records' risk ordinals, the first at most three averaged as "recent", the
remainder averaged as "older" (dividing by at least 1), with the ±0.5
escalating/improving thresholds and "stable" for fewer than two ordinals. -/
def trendSpecC3 (records : List SRecord) : String :=
  let rv : List ℕ :=
    (records.take 10).map (fun r => riskOrdinal (pyLower (r.risk.getD "low")))
  if rv.length < 2 then "stable"
  else
    let recent : ℚ := ((rv.take 3).sum : ℚ) / ((rv.take 3).length : ℚ)
    let older : ℚ := ((rv.drop 3).sum : ℚ) / ((max 1 (rv.drop 3).length : ℕ) : ℚ)
    if 0.5 < recent - older then "escalating"
    else if recent - older < -0.5 then "improving"
    else "stable"

/-- The trend rule the summarizer actually implements (claim C3 amended):
the ordinals of all records carrying a risk value, with no ten-record cap;
"recent" is the mean of the last at most three ordinals (the oldest records
of a most-recent-first sequence), "older" the mean of the earlier ordinals
when more than three exist and otherwise equal to "recent"; same ±0.5
thresholds, and "stable" for fewer than two ordinals. -/
def trendAmendedC3 (records : List SRecord) : String :=
  let rv : List ℕ := records.filterMap (fun r =>
    match r.risk with
    | none => none
    | some s => if s = "" then none else some (riskOrdinal (pyLower s)))
  if rv.length < 2 then "stable"
  else
    let recent : ℚ :=
      ((rv.reverse.take 3).sum : ℚ) / ((min 3 (rv.reverse.take 3).length : ℕ) : ℚ)
    let older : ℚ :=
      if 3 < rv.length then
        ((rv.reverse.drop 3).sum : ℚ) / ((max 1 (rv.reverse.drop 3).length : ℕ) : ℚ)
      else recent
    if 0.5 < recent - older then "escalating"
    else if recent - older < -0.5 then "improving"
    else "stable"

/-- The comorbidity computation as claim C5 states it: classify the
DISTINCT lowercased disease labels, so repeated labels count once. -/
def comorbiditySpecC5 (records : List PRecord) : ℚ :=
  let ds := firstOccurrences (lowerDiseases records)
  let metabolic_count := ds.countP (fun d => metabolic_conditions.any (fun c => pyContains d c))
  let cardiovascular_count :=
    ds.countP (fun d => cardiovascular_conditions.any (fun c => pyContains d c))
  let respiratory_count :=
    ds.countP (fun d => respiratory_conditions.any (fun c => pyContains d c))
  min ((if 2 ≤ metabolic_count then 0.3 else 0) +
       (if 2 ≤ cardiovascular_count then 0.3 else 0) +
       (if 2 ≤ respiratory_count then 0.2 else 0) +
       (if 1 ≤ metabolic_count ∧ 1 ≤ cardiovascular_count then 0.2 else 0) : ℚ) 1

/-- The comorbidity rule the engine actually implements (claim C5 amended):
group occurrences are counted once per record carrying a disease label,
so repeated labels count repeatedly. -/
def comorbidityAmendedC5 (records : List PRecord) : ℚ :=
  let occurrences := fun (group : List String) =>
    records.countP (fun r =>
      decide (r.diseaseD ≠ "") && group.any (fun cond => pyContains (pyLower r.diseaseD) cond))
  let metabolic_count := occurrences metabolic_conditions
  let cardiovascular_count := occurrences cardiovascular_conditions
  let respiratory_count := occurrences respiratory_conditions
  min ((if 2 ≤ metabolic_count then 0.3 else 0) +
       (if 2 ≤ cardiovascular_count then 0.3 else 0) +
       (if 2 ≤ respiratory_count then 0.2 else 0) +
       (if 1 ≤ metabolic_count ∧ 1 ≤ cardiovascular_count then 0.2 else 0) : ℚ) 1

/-! ### Concrete inputs used by the claims -/

/-- A single-record history with no diabetes/hypertension/heart/kidney
indicator matches at all. -/
def c1recs : List PRecord := [⟨some "Acute Bronchitis", some "medium", some "2024-01-01"⟩]

def c1pd : PatientData := ⟨none, some c1recs⟩

/-- A one-record history carrying a hypertension label. -/
def c2recs : List PRecord := [⟨some "Hypertension", some "high", some "2024-01-01"⟩]

/-- Four records, most recent first, with risks high, high, high, low. -/
def c3recs : List SRecord :=
  [⟨"", some ⟨2024, 11, 20⟩, some "Vertigo", none, none, some "high", none⟩,
   ⟨"", some ⟨2024, 11, 19⟩, some "Tinnitus", none, none, some "high", none⟩,
   ⟨"", some ⟨2024, 11, 18⟩, some "Insomnia", none, none, some "high", none⟩,
   ⟨"", some ⟨2024, 11, 17⟩, some "Eczema", none, none, some "low", none⟩]

/-- The literal scenario of claim C4. -/
def c4recs : List PRecord :=
  [⟨some "Hypertension", some "high", some "2024-11-20"⟩,
   ⟨some "Type 2 Diabetes", some "high", some "2024-11-15"⟩,
   ⟨some "Hypertension", some "medium", some "2024-10-10"⟩,
   ⟨some "Acute Bronchitis", some "medium", some "2024-09-05"⟩]

def c4pd : PatientData := ⟨some 55, some c4recs⟩

/-- Two records with the same (repeated) hypertension label. -/
def c5recs : List PRecord :=
  [⟨some "Hypertension", some "low", some "2024-01-02"⟩,
   ⟨some "Hypertension", some "low", some "2024-01-01"⟩]

/-- Ten records tuned so that the average of the five rounded risk scores is
exactly 15.04, making the overall health score round to 85.0 while five
predictions are present. -/
def c6recs : List PRecord :=
  [⟨some "High Blood Pressure", some "medium", some "2024-11-10"⟩,
   ⟨some "Glucose Test", some "medium", some "2024-11-09"⟩,
   ⟨some "Kidney Stones", some "low", some "2024-11-08"⟩,
   ⟨some "Renal Cyst", some "high", some "2024-11-07"⟩,
   ⟨some "Creatinine Elevated", some "medium", some "2024-11-06"⟩,
   ⟨some "Migraine", some "low", some "2024-11-05"⟩,
   ⟨some "Sprained Ankle", some "low", some "2024-11-04"⟩,
   ⟨some "Skin Rash", some "low", some "2024-11-03"⟩,
   ⟨some "Seasonal Allergy", some "low", some "2024-11-02"⟩,
   ⟨some "Fractured Wrist", some "low", some "2024-11-01"⟩]

def c6pd : PatientData := ⟨some 10, some c6recs⟩

/-- A payload with neither age nor records. -/
def pdEmpty : PatientData := ⟨none, none⟩

/-- A two-record history whose parsed fields carry two distinct disease
labels, so the summary's "Diagnosed Conditions" line depends on the
set-enumeration order. -/
def c7history : String :=
  "Disease: Qualzheimer\nRisk Level: low\n---\nDisease: Bleriwosis\nRisk Level: low"

def c7outA : String :=
  "=== MEDICAL PROFILE ===\nDiagnosed Conditions: Qualzheimer, Bleriwosis\n\n=== QUICK INSIGHTS ===\nRisk Distribution: Low: 2\nRisk Trend: Stable\nTotal Records: 2 visits, 2 unique conditions"

def c7outB : String :=
  "=== MEDICAL PROFILE ===\nDiagnosed Conditions: Bleriwosis, Qualzheimer\n\n=== QUICK INSIGHTS ===\nRisk Distribution: Low: 2\nRisk Trend: Stable\nTotal Records: 2 visits, 2 unique conditions"

/-! ### Helper lemmas -/

section ClaimProofs

attribute [local semireducible] Rat.add Rat.mul Rat.inv Rat.sub Rat.ofScientific

theorem isSetEnum_dedupLast : IsSetEnum dedupLast :=
  fun l => ⟨l.nodup_dedup, fun _ => List.mem_dedup⟩

theorem isSetEnum_dedupLastRev : IsSetEnum dedupLastRev :=
  fun l => ⟨List.nodup_reverse.mpr l.nodup_dedup,
    fun x => by rw [dedupLastRev, List.mem_reverse, List.mem_dedup]⟩

theorem insertDescBy_perm {α : Type} (gtB : α → α → Bool) (x : α) (l : List α) :
    (insertDescBy gtB x l).Perm (x :: l) := by
  induction l with
  | nil => exact List.Perm.refl _
  | cons y ys ih =>
    simp only [insertDescBy]
    split
    · exact List.Perm.refl _
    · exact (List.Perm.cons y ih).trans (List.Perm.swap x y ys)

theorem pySortDescBy_perm_aux {α : Type} (gtB : α → α → Bool) (l acc : List α) :
    (l.foldl (fun acc x => insertDescBy gtB x acc) acc).Perm (acc ++ l) := by
  induction l generalizing acc with
  | nil => simp
  | cons x xs ih =>
    simp only [List.foldl_cons]
    exact (ih (insertDescBy gtB x acc)).trans
      (((insertDescBy_perm gtB x acc).append_right xs).trans List.perm_middle.symm)

theorem pySortDescBy_perm {α : Type} (gtB : α → α → Bool) (l : List α) :
    (pySortDescBy gtB l).Perm l := by
  simpa using pySortDescBy_perm_aux gtB l []

theorem groupOccurrences_eq (group : List String) (records : List PRecord) :
    groupOccurrences group records =
      records.countP (fun r =>
        decide (r.diseaseD ≠ "") &&
          group.any (fun cond => pyContains (pyLower r.diseaseD) cond)) := by
  unfold groupOccurrences lowerDiseases
  rw [List.countP_map, List.countP_filter]
  refine List.countP_congr ?_
  intro r _
  simp only [Function.comp_apply, Bool.and_eq_true, decide_eq_true_eq]
  exact and_comm

theorem sRisks_ordinals (records : List SRecord) :
    (sRisks records).map (fun r => riskOrdinal (pyLower r)) =
      records.filterMap (fun r =>
        match r.risk with
        | none => none
        | some s => if s = "" then none else some (riskOrdinal (pyLower s))) := by
  unfold sRisks
  induction records with
  | nil => rfl
  | cons r rs ih =>
    cases hr : r.risk with
    | none => simpa [List.filter_cons, List.filterMap_cons, hr] using ih
    | some s =>
      by_cases hs : s = "" <;>
        simpa [List.filter_cons, List.filterMap_cons, hr, hs] using ih

theorem analyze_risk_progression_nonneg (records : List PRecord) :
    0 ≤ analyze_risk_progression records := by
  unfold analyze_risk_progression
  dsimp only
  split
  · exact le_refl 0
  · split
    · exact le_refl 0
    · exact le_max_left 0 _

theorem analyze_risk_progression_le_one (records : List PRecord) :
    analyze_risk_progression records ≤ 1 := by
  unfold analyze_risk_progression
  dsimp only
  split
  · norm_num
  · split
    · norm_num
    · exact max_le (by norm_num) (min_le_right _ _)

theorem analyze_medical_history_le_one (records : List PRecord) :
    ∀ ch ∈ analyze_medical_history records, ch.2 ≤ 1 := by
  intro ch hch
  unfold analyze_medical_history at hch
  split at hch
  · simp at hch
  · simp only [List.mem_cons, List.not_mem_nil, or_false] at hch
    rcases hch with rfl | rfl | rfl | rfl | rfl <;>
      simp only [diabetesScore, hypertensionScore, heartScore, strokeScore, kidneyScore] <;>
      exact min_le_right _ _

theorem check_related_conditions_le_one (records : List PRecord) :
    check_related_conditions records ≤ 1 := by
  unfold check_related_conditions
  exact min_le_right _ _

theorem calculate_age_risk_le (age : ℤ) : calculate_age_risk age ≤ 0.8 := by
  unfold calculate_age_risk
  split_ifs <;> norm_num

theorem halfEvenRound_le (q : ℚ) : (halfEvenRound q : ℚ) ≤ q + 1/2 := by
  unfold halfEvenRound
  dsimp only
  have hfl := Int.floor_le q
  split_ifs with h1 h2 h3
  · linarith
  · push_cast
    linarith
  · linarith
  · push_cast
    linarith

theorem pyRound1_le (q : ℚ) : pyRound1 q ≤ q + 1/20 := by
  unfold pyRound1
  have h := halfEvenRound_le (10 * q)
  linarith

theorem predictionFor_riskScore_le (age : ℤ) (prog com : ℚ)
    (recurring : List (String × ℕ)) (recordCount : ℕ) (ch : String × ℚ)
    (hh : ch.2 ≤ 1) (hp : prog ≤ 1) (hc : com ≤ 1) :
    (predictionFor age (calculate_age_risk age) prog com recurring recordCount ch).riskScore ≤
      97.05 := by
  have ha := calculate_age_risk_le age
  unfold predictionFor
  dsimp only
  have hb : (if recurring.any (fun p => p.1 = ch.1) then (0.15 : ℚ) else 0) ≤ 0.15 := by
    split <;> norm_num
  have hraw := pyRound1_le ((calculate_age_risk age * 0.15 + ch.2 * 0.35 + prog * 0.25 +
    (if recurring.any (fun p => p.1 = ch.1) then (0.15 : ℚ) else 0) + com * 0.10) * 100)
  nlinarith [hraw, ha, hh, hp, hc, hb]

theorem overall_spec (preds sorted : List Prediction)
    (hperm : sorted.Perm preds) (hbound : ∀ p ∈ preds, p.riskScore ≤ 97.05) :
    (sorted = [] → pyRound1 (overallFromPreds preds) = 85) ∧
    (sorted ≠ [] → pyRound1 (overallFromPreds preds) =
      pyRound1 (100 - (sorted.map (fun p => p.riskScore)).sum / (sorted.length : ℚ))) := by
  constructor
  · intro h
    have hp : preds = [] := ((h ▸ hperm).symm).eq_nil
    subst hp
    decide
  · intro hne
    have hpne : preds ≠ [] := by
      intro h
      exact hne (h ▸ hperm).eq_nil
    have hsum : (sorted.map (fun p => p.riskScore)).sum =
        (preds.map (fun p => p.riskScore)).sum := (hperm.map _).sum_eq
    have hlen : sorted.length = preds.length := hperm.length_eq
    rw [hsum, hlen]
    unfold overallFromPreds
    rw [if_neg hpne]
    have hn : (0 : ℚ) < (preds.length : ℚ) := by
      exact_mod_cast List.length_pos.mpr hpne
    have hmapped : ∀ x ∈ preds.map (fun p => p.riskScore), x ≤ (97.05 : ℚ) := by
      intro x hx
      rcases List.mem_map.mp hx with ⟨p, hp, rfl⟩
      exact hbound p hp
    have hS := List.sum_le_card_nsmul (preds.map (fun p => p.riskScore)) 97.05 hmapped
    rw [List.length_map, nsmul_eq_mul] at hS
    have hdiv : (preds.map (fun p => p.riskScore)).sum / (preds.length : ℚ) ≤ 97.05 := by
      rw [div_le_iff₀ hn]
      linarith
    rw [max_eq_right (by linarith)]
/-! ### The claims -/

/-- Claim C2 (confirmed): for every non-empty records list, the Stroke
history score equals min(0.4·Hypertension + 0.3·Diabetes + 0.3·HeartDisease,
1) and the Kidney Disease history score equals min(0.2·kidneyMatchCount +
0.3·Hypertension + 0.3·Diabetes, 1), where the dependencies are the
finalized Step-1 scores the returned profile itself carries for the same
records. -/
theorem C2_composite_after_dependencies (records : List PRecord) (h : records ≠ []) :
    lookupScore (analyze_medical_history records) "Stroke" =
      some (min (0.4 * ((lookupScore (analyze_medical_history records) "Hypertension").getD 0) +
        0.3 * ((lookupScore (analyze_medical_history records) "Type 2 Diabetes").getD 0) +
        0.3 * ((lookupScore (analyze_medical_history records) "Heart Disease").getD 0)) 1) ∧
    lookupScore (analyze_medical_history records) "Kidney Disease" =
      some (min (0.2 * (indicatorCount kidney_indicators records : ℚ) +
        0.3 * ((lookupScore (analyze_medical_history records) "Hypertension").getD 0) +
        0.3 * ((lookupScore (analyze_medical_history records) "Type 2 Diabetes").getD 0)) 1) := by
  unfold analyze_medical_history
  rw [if_neg h]
  constructor
  · simp [lookupScore, List.find?, strokeScore]
    congr 1
    ring
  · simp [lookupScore, List.find?, kidneyScore]
    congr 1
    ring

/-- Witness for C2 at a concrete one-record history. -/
theorem C2_composite_after_dependencies_witness :
    (c2recs ≠ []) ∧
    lookupScore (analyze_medical_history c2recs) "Stroke" =
      some (min (0.4 * ((lookupScore (analyze_medical_history c2recs) "Hypertension").getD 0) +
        0.3 * ((lookupScore (analyze_medical_history c2recs) "Type 2 Diabetes").getD 0) +
        0.3 * ((lookupScore (analyze_medical_history c2recs) "Heart Disease").getD 0)) 1) :=
  ⟨by decide, (C2_composite_after_dependencies c2recs (by decide)).1⟩

/-- Claim C10 (confirmed): the engine's trendDirection is always "declining"
or "stable"; the "improving" branch is unreachable because the progression
score is clamped to [0, 1] before the comparison. -/
theorem C10_trend_never_improving (pd : PatientData) :
    (calculate_disease_risk pd).trendDirection = "declining" ∨
      (calculate_disease_risk pd).trendDirection = "stable" := by
  have h := analyze_risk_progression_nonneg (pd.records.getD [])
  unfold calculate_disease_risk
  dsimp only
  split_ifs with h1 h2
  · exact Or.inl rfl
  · exfalso
    linarith
  · exact Or.inr rfl

/-- Claim C4 (confirmed): the literal scenario — age 55 and the four dated
records — gives Hypertension historyScore 0.3, a recurring Hypertension
label (2 occurrences), comorbidity 0.5, progression 1/6 (≈ 0.167), and a
Hypertension prediction with riskScore 40.7 and riskLevel "medium". -/
theorem C4_literal_scenario :
    lookupScore (analyze_medical_history c4recs) "Hypertension" = some 0.3 ∧
    ("Hypertension", 2) ∈ identify_recurring_patterns c4recs ∧
    check_related_conditions c4recs = 0.5 ∧
    analyze_risk_progression c4recs = 1/6 ∧
    ((calculate_disease_risk c4pd).predictions.filter
      (fun p => p.condition = "Hypertension")).map (fun p => (p.riskScore, p.riskLevel)) =
      [(40.7, "medium")] := by
  decide

/-- Claim C1 counterexample: with the single record "Acute Bronchitis"
(medium risk), Type 2 Diabetes matches zero indicator keywords and every
composite score formula evaluates to zero, yet Type 2 Diabetes and Stroke
still appear as entries of `predictions`. -/
theorem C1_counterexample :
    indicatorCount diabetes_indicators c1recs = 0 ∧
    strokeScore c1recs = 0 ∧ kidneyScore c1recs = 0 ∧ heartScore c1recs = 0 ∧
    "Type 2 Diabetes" ∈ (calculate_disease_risk c1pd).predictions.map (fun p => p.condition) ∧
    "Stroke" ∈ (calculate_disease_risk c1pd).predictions.map (fun p => p.condition) := by
  decide

/-- Claim C1 amended: for every payload with a non-empty records list the
predictions list contains exactly the five fixed conditions, zero-evidence
conditions included (their history score is simply 0). -/
theorem C1_amended_all_conditions_present (pd : PatientData)
    (h : pd.records.getD [] ≠ []) :
    ((calculate_disease_risk pd).predictions.map (fun p => p.condition)).Perm
      ["Type 2 Diabetes", "Hypertension", "Heart Disease", "Stroke", "Kidney Disease"] := by
  have hperm := (pySortDescBy_perm
      (fun p q : Prediction => decide (q.riskScore < p.riskScore))
      ((analyze_medical_history (pd.records.getD [])).map
        (predictionFor (pd.age.getD 30) (calculate_age_risk (pd.age.getD 30))
          (analyze_risk_progression (pd.records.getD []))
          (check_related_conditions (pd.records.getD []))
          (identify_recurring_patterns (pd.records.getD []))
          (pd.records.getD []).length))).map (fun p => p.condition)
  have heq : ((analyze_medical_history (pd.records.getD [])).map
      (predictionFor (pd.age.getD 30) (calculate_age_risk (pd.age.getD 30))
        (analyze_risk_progression (pd.records.getD []))
        (check_related_conditions (pd.records.getD []))
        (identify_recurring_patterns (pd.records.getD []))
        (pd.records.getD []).length)).map (fun p => p.condition) =
      ["Type 2 Diabetes", "Hypertension", "Heart Disease", "Stroke", "Kidney Disease"] := by
    unfold analyze_medical_history
    rw [if_neg h]
    simp [predictionFor]
  rw [heq] at hperm
  exact hperm

/-- Witness for the amended C1 at the concrete single-record payload. -/
theorem C1_amended_witness :
    (c1pd.records.getD [] ≠ []) ∧
    ((calculate_disease_risk c1pd).predictions.map (fun p => p.condition)).Perm
      ["Type 2 Diabetes", "Hypertension", "Heart Disease", "Stroke", "Kidney Disease"] :=
  ⟨by decide, C1_amended_all_conditions_present c1pd (by decide)⟩

/-- Claim C5 counterexample: two records repeating the label "Hypertension".
The code counts group occurrences per record and returns 0.3; classifying
the distinct labels, as the claim states, would return 0. -/
theorem C5_counterexample :
    check_related_conditions c5recs = 0.3 ∧ comorbiditySpecC5 c5recs = 0 ∧
    check_related_conditions c5recs ≠ comorbiditySpecC5 c5recs := by
  decide

/-- Claim C5 amended: the comorbidity score classifies the lowercased label
of every record carrying one (repeated labels count once per record), with
the claimed bonuses and the cap at 1. -/
theorem C5_amended_per_record_counting (records : List PRecord) :
    check_related_conditions records = comorbidityAmendedC5 records := by
  unfold check_related_conditions comorbidityAmendedC5
  simp only [groupOccurrences_eq]

/-- Claim C3 counterexample: four records, most recent first, with risks
high, high, high, low. The rule stated by the claim gives "escalating"
(recent = first three = 3, older = 1); the summarizer computes "improving"
because its "recent" average takes the last three ordinals of the
most-recent-first sequence. -/
theorem C3_counterexample :
    (analyze_patterns c3recs).risk_trend = "improving" ∧
    trendSpecC3 c3recs = "escalating" ∧
    (analyze_patterns c3recs).risk_trend ≠ trendSpecC3 c3recs := by
  decide

/-- Claim C3 amended: the summarizer's risk trend uses the ordinals of all
records carrying a risk value (no ten-record cap), averages the LAST at
most three ordinals as "recent" and the earlier ones as "older" (older
equals recent when at most three ordinals exist), and classifies with the
±0.5 thresholds; fewer than two ordinals give "stable". -/
theorem C3_amended_trend_rule (records : List SRecord) :
    (analyze_patterns records).risk_trend = trendAmendedC3 records := by
  unfold analyze_patterns trendAmendedC3
  rw [← sRisks_ordinals records]
  dsimp only
  rcases lt_or_le ((sRisks records).map (fun r => riskOrdinal (pyLower r))).length 2 with
    hlen | hlen
  · rw [if_neg (not_le.mpr hlen), if_pos hlen]
  · rw [if_pos hlen, if_neg (not_lt.mpr hlen)]
    rw [List.take_reverse, List.drop_reverse]
    simp only [List.sum_reverse, List.length_reverse]
    refine if_congr ?_ rfl (if_congr ?_ rfl rfl) <;>
      constructor <;> intro <;> linarith

set_option maxRecDepth 100000 in
/-- Claim C6 counterexample: a ten-record payload whose five rounded risk
scores average exactly 15.04 — the predictions list is non-empty, yet
`overallHealthScore` is exactly 85; moreover 100 minus the mean of the
riskScores is 84.96, not 85, because the stored score is rounded. -/
theorem C6_counterexample :
    (calculate_disease_risk c6pd).predictions ≠ [] ∧
    (calculate_disease_risk c6pd).overallHealthScore = 85 ∧
    100 - ((calculate_disease_risk c6pd).predictions.map (fun p => p.riskScore)).sum /
        ((calculate_disease_risk c6pd).predictions.length : ℚ) ≠ 85 := by
  decide

/-- Claim C6 amended: `overallHealthScore` is 85 when the predictions list
is empty, and otherwise is 100 minus the mean of the stored riskScores,
rounded to one decimal (the max-with-0 clamp never binds because every risk
score is at most 97.05); 85 therefore does not imply an empty list. -/
theorem C6_amended_overall_score (pd : PatientData) :
    ((calculate_disease_risk pd).predictions = [] →
      (calculate_disease_risk pd).overallHealthScore = 85) ∧
    ((calculate_disease_risk pd).predictions ≠ [] →
      (calculate_disease_risk pd).overallHealthScore =
        pyRound1 (100 -
          ((calculate_disease_risk pd).predictions.map (fun p => p.riskScore)).sum /
            ((calculate_disease_risk pd).predictions.length : ℚ))) := by
  have hbound : ∀ p ∈ (analyze_medical_history (pd.records.getD [])).map
      (predictionFor (pd.age.getD 30) (calculate_age_risk (pd.age.getD 30))
        (analyze_risk_progression (pd.records.getD []))
        (check_related_conditions (pd.records.getD []))
        (identify_recurring_patterns (pd.records.getD []))
        (pd.records.getD []).length), p.riskScore ≤ 97.05 := by
    intro p hp
    rcases List.mem_map.mp hp with ⟨ch, hch, rfl⟩
    exact predictionFor_riskScore_le _ _ _ _ _ _
      (analyze_medical_history_le_one _ ch hch)
      (analyze_risk_progression_le_one _)
      (check_related_conditions_le_one _)
  exact overall_spec _ _ (pySortDescBy_perm _ _) hbound

/-- Witness for the amended C6 at the empty payload. -/
theorem C6_amended_witness :
    (calculate_disease_risk pdEmpty).predictions = [] ∧
    (calculate_disease_risk pdEmpty).overallHealthScore = 85 :=
  ⟨by decide, (C6_amended_overall_score pdEmpty).1 (by decide)⟩

set_option maxRecDepth 100000 in
/-- Claim C7 counterexample: the summary string is NOT a function of the
payload and the clock alone — two valid set-enumeration orders (both
legitimate behaviours of `list(set(...))` under Python's per-process hash
salting) give byte-different output on the same input and time. -/
theorem C7_counterexample :
    ¬ (∀ (history : String) (em : Bool) (now : ℤ) (e₁ e₂ : List String → List String),
        IsSetEnum e₁ → IsSetEnum e₂ →
          generate_emergency_summary now e₁ history em =
            generate_emergency_summary now e₂ history em) := by
  intro hall
  have h := hall c7history true 0 dedupLast dedupLastRev isSetEnum_dedupLast
    isSetEnum_dedupLastRev
  revert h
  decide

set_option maxRecDepth 100000 in
/-- Claim C7 amended: the output is a deterministic function of the payload,
the injected time AND the interpreter's set-enumeration order — for the
concrete two-disease history, each of the two valid enumeration orders
pins an exact output string, and the two strings differ. -/
theorem C7_amended_determinism_modulo_set_order :
    IsSetEnum dedupLast ∧ IsSetEnum dedupLastRev ∧
    generate_emergency_summary 0 dedupLast c7history true = c7outA ∧
    generate_emergency_summary 0 dedupLastRev c7history true = c7outB ∧
    c7outA ≠ c7outB :=
  ⟨isSetEnum_dedupLast, isSetEnum_dedupLastRev, by decide, by decide, by decide⟩

/-- Claim C8 counterexample: invoked with an empty `history` string, the
summarizer's main emits the error payload "No patient history provided" —
not a success payload carrying the fixed no-records message. -/
theorem C8_counterexample :
    (mainS 0 dedupLast (.payload "" true)).out = .errorOut "No patient history provided" ∧
    (mainS 0 dedupLast (.payload "" true)).out ≠
      .successSumm "No medical records found to summarize." := by
  decide

/-- Claim C8 amended: the empty history string short-circuits in `main` to
the error payload (exit status 0); a non-empty history with no non-empty
record blocks (such as "---") reaches the summarizer and yields the success
payload whose text is exactly the fixed no-records message. -/
theorem C8_amended_empty_history (now : ℤ) (enum : List String → List String) (em : Bool) :
    mainS now enum (.payload "" em) =
      ⟨.errorOut "No patient history provided", 0, false⟩ ∧
    mainS now enum (.payload "---" em) =
      ⟨.successSumm "No medical records found to summarize.", 0, false⟩ :=
  ⟨rfl, rfl⟩

/-- Claim C9 counterexample: a payload without `patientData` produces an
error payload together with exit status 0, contradicting "error payload ⇒
non-zero exit status". -/
theorem C9_counterexample :
    (mainP (.payload none)).out = .errorOut "No patient data provided" ∧
    (mainP (.payload none)).exitCode = 0 :=
  ⟨rfl, rfl⟩

/-- Claim C9 amended: failures raised inside the try block exit 1 with the
error payload on stderr; the missing-`patientData` (resp. missing-history)
branch emits its error payload on stdout with exit status 0; success
payloads only ever occur with exit status 0. -/
theorem C9_amended_exit_statuses (msg : String) (pd : PatientData) (now : ℤ)
    (enum : List String → List String) (i : PredInput) (j : SummInput) :
    mainP (.malformed msg) = ⟨.errorOut ("Prediction failed: " ++ msg), 1, true⟩ ∧
    mainP (.payload none) = ⟨.errorOut "No patient data provided", 0, false⟩ ∧
    mainP (.payload (some pd)) = ⟨.successPred (calculate_disease_risk pd), 0, false⟩ ∧
    mainS now enum (.malformed msg) = ⟨.errorOut ("Processing failed: " ++ msg), 1, true⟩ ∧
    ((∃ r, (mainP i).out = .successPred r) → (mainP i).exitCode = 0) ∧
    ((∃ s, (mainS now enum j).out = .successSumm s) → (mainS now enum j).exitCode = 0) := by
  refine ⟨rfl, rfl, rfl, rfl, ?_, ?_⟩
  · rintro ⟨r, hr⟩
    cases i with
    | malformed m => exact absurd hr (by simp [mainP])
    | payload o => cases o <;> rfl
  · rintro ⟨s, hs⟩
    cases j with
    | malformed m => exact absurd hs (by simp [mainS])
    | payload h e =>
      by_cases hh : h = ""
      · subst hh
        exact absurd hs (by simp [mainS])
      · simp [mainS, hh]

/-- Witness for the amended C9: a well-formed payload is a success with
exit status 0. -/
theorem C9_amended_witness :
    (∃ r, (mainP (.payload (some pdEmpty))).out = .successPred r) ∧
    (mainP (.payload (some pdEmpty))).exitCode = 0 :=
  ⟨⟨calculate_disease_risk pdEmpty, rfl⟩,
   (C9_amended_exit_statuses "x" pdEmpty 0 dedupLast (.payload (some pdEmpty))
      (.malformed "x")).2.2.2.2.1 ⟨calculate_disease_risk pdEmpty, rfl⟩⟩

end ClaimProofs

end MediScan
